import Mathlib

/-!
Shallow embedding of `handleSuccessfulPayment` from
`backend/src/services/stripe.service.ts` (as installed by `src/temp_patch.py`).

Monetary decimals are modelled exactly over `ℚ` (the source compares a
Prisma `Decimal`-derived number against a minor-unit integer divided by 100,
with an absolute tolerance of 0.01).  JavaScript string-falsiness
(`undefined`/`null`/`""`) is modelled by defaulting an `Option String` to
`""` and testing non-emptiness.  The external collaborators (Stripe session
retrieval, Prisma update, promo increment, the two mailers and the analytics
emitter) are modelled by an environment of explicit outcomes; the persistence
layer is an explicit state (orders keyed by id, plus a payment ledger), and
the routine returns its result together with the final state and the list of
fan-out effects it dispatched.
-/

/-- `session.metadata` — the provider's metadata mapping, as the routine reads it. -/
structure PaymentSessionMetadata where
  orderId : Option String
  userId : Option String
  deriving Repr, DecidableEq

/-- The provider's checkout-session record, restricted to the fields the routine reads. -/
structure PaymentSession where
  payment_status : String
  metadata : Option PaymentSessionMetadata
  client_reference_id : Option String
  amount_total : Option Int
  currency : Option String
  payment_intent : String
  payment_method_types : Option (List String)
  deriving Repr, DecidableEq

/-- The owning user, as eagerly included by the order lookup. -/
structure User where
  id : String
  firstName : Option String
  email : String
  deriving Repr, DecidableEq

/-- A line item; the routine only ever takes the length of the list. -/
structure OrderItem where
  id : String
  deriving Repr, DecidableEq

/-- Shipping address; the routine only reads the country. -/
structure Address where
  country : String
  deriving Repr, DecidableEq

/-- The merchant-side order aggregate, with the relations the lookup includes. -/
structure Order where
  id : String
  userId : String
  status : String
  totalAmount : ℚ
  designTier : String
  orderNumber : String
  promoCodeId : Option String
  paidAt : Option Int
  user : User
  items : List OrderItem
  address : Option Address
  deriving Repr, DecidableEq

/-- The payment ledger entry created by the atomic update. -/
structure Payment where
  stripePaymentId : String
  amount : ℚ
  currency : String
  status : String
  paymentMethod : String
  deriving Repr, DecidableEq

/-- Persistence-layer state: orders keyed by identifier, and the payment ledger
(each entry tagged with the order id it was created under). -/
structure DB where
  orders : String → Option Order
  payments : List (String × Payment)

/-- The error taxonomy: one constructor per distinct `throw` site of the routine,
plus the failure channels of the awaited collaborators. -/
inductive PaymentError where
  | retrieveFailed (msg : String)
  | paymentIncomplete
  | orderIdNotFound
  | orderNotFound
  | identityMismatchClientRef
  | identityMismatchUser
  | unsupportedCurrency (currency : String)
  | amountMismatch (expected got : ℚ)
  | updateFailed (msg : String)
  | promoIncrementFailed (msg : String)
  deriving Repr, DecidableEq

/-- The six pre-commit failure kinds of the spec's error taxonomy. -/
def PaymentError.isValidationError : PaymentError → Bool
  | .paymentIncomplete => true
  | .orderIdNotFound => true
  | .orderNotFound => true
  | .identityMismatchClientRef => true
  | .identityMismatchUser => true
  | .unsupportedCurrency _ => true
  | .amountMismatch _ _ => true
  | _ => false

/-- The `IntegrityMismatch` family member for identity disagreement. -/
def PaymentError.isIdentityMismatch : PaymentError → Bool
  | .identityMismatchClientRef => true
  | .identityMismatchUser => true
  | _ => false

/-- Payload of `sendOrderConfirmation`. -/
structure ConfirmationPayload where
  customerName : String
  customerEmail : String
  orderNumber : String
  orderTotal : ℚ
  tier : String
  itemCount : Nat
  orderUrl : String
  deriving Repr, DecidableEq

/-- Payload of `sendPromptGuide`. -/
structure GuidePayload where
  customerName : String
  customerEmail : String
  orderNumber : String
  orderUrl : String
  deriving Repr, DecidableEq

/-- Payload of the `order.paid` analytics event. -/
structure AnalyticsPayload where
  event : String
  order_id : String
  order_number : String
  amount : ℚ
  tier : String
  item_count : Nat
  country : String
  deriving Repr, DecidableEq

/-- One dispatched fan-out effect, with the outcome its transport produced.
Messaging and analytics outcomes are recorded (the source logs rejections via
an attached handler, and fires the analytics emitter without awaiting it). -/
inductive Effect where
  | promoIncrement (code : String) (outcome : Except String Unit)
  | orderConfirmation (payload : ConfirmationPayload) (outcome : Except String Unit)
  | promptGuide (payload : GuidePayload) (outcome : Except String Unit)
  | analytics (payload : AnalyticsPayload) (outcome : Except String Unit)
  deriving Repr

/-- Behaviours of the external collaborators for one invocation. -/
structure Env where
  retrieveSession : String → Except String PaymentSession
  updateOutcome : Except String Unit
  promoOutcome : String → Except String Unit
  confirmationOutcome : Except String Unit
  guideOutcome : Except String Unit
  analyticsOutcome : Except String Unit
  frontendUrl : Option String
  now : Int

/-- `.toLowerCase()` (ASCII, matching `Char.toLower`), written over the
character list so it reduces by `rfl`. -/
def strToLower (s : String) : String :=
  String.mk (s.data.map Char.toLower)

/-- `session.metadata?.orderId`, with JS falsiness: absent maps to `""`. -/
def sessionOrderId (s : PaymentSession) : String :=
  (s.metadata.bind PaymentSessionMetadata.orderId).getD ""

/-- `session.metadata?.userId`, with JS falsiness: absent maps to `""`. -/
def sessionUserId (s : PaymentSession) : String :=
  (s.metadata.bind PaymentSessionMetadata.userId).getD ""

/-- `session.client_reference_id`, with JS falsiness: absent maps to `""`. -/
def clientRef (s : PaymentSession) : String :=
  s.client_reference_id.getD ""

/-- `const sessionTotal = (session.amount_total || 0) / 100`. -/
def sessionTotal (s : PaymentSession) : ℚ :=
  ((s.amount_total.getD 0 : Int) : ℚ) / 100

/-- `const currency = (session.currency || '').toLowerCase()`. -/
def sessionCurrencyNorm (s : PaymentSession) : String :=
  strToLower (s.currency.getD "")

/-- `session.currency || 'usd'` — the currency written to the Payment record. -/
def paymentCurrency (s : PaymentSession) : String :=
  if s.currency.getD "" = "" then "usd" else s.currency.getD ""

/-- `session.payment_method_types?.[0] || 'card'`. -/
def paymentMethodTag (s : PaymentSession) : String :=
  if (s.payment_method_types.getD []).headD "" = "" then "card"
  else (s.payment_method_types.getD []).headD ""

/-- The Payment record the atomic update creates (`payment: { create: ... }`). -/
def mkPayment (s : PaymentSession) : Payment :=
  { stripePaymentId := s.payment_intent
    amount := sessionTotal s
    currency := paymentCurrency s
    status := "COMPLETED"
    paymentMethod := paymentMethodTag s }

/-- The order as rewritten by the atomic update: status `PAID`, `paidAt` stamped. -/
def markPaid (order : Order) (now : Int) : Order :=
  { order with status := "PAID", paidAt := some now }

/-- The persistence state after the atomic update commits. -/
def commitDB (db : DB) (oid : String) (order : Order) (now : Int) (s : PaymentSession) : DB :=
  { orders := fun i => if i = oid then some (markPaid order now) else db.orders i
    payments := (oid, mkPayment s) :: db.payments }

/-- `user.firstName || user.email`. -/
def customerNameOf (u : User) : String :=
  match u.firstName with
  | some f => if f = "" then u.email else f
  | none => u.email

/-- `process.env.FRONTEND_URL || 'http://localhost:5173'`. -/
def frontendUrlOf (env : Env) : String :=
  if env.frontendUrl.getD "" = "" then "http://localhost:5173" else env.frontendUrl.getD ""

/-- `updatedOrder.address?.country || 'US'`. -/
def countryOf (o : Order) : String :=
  match o.address with
  | some a => if a.country = "" then "US" else a.country
  | none => "US"

/-- Payload of the order-confirmation message, as the routine assembles it. -/
def mkConfirmationPayload (env : Env) (o : Order) : ConfirmationPayload :=
  { customerName := customerNameOf o.user
    customerEmail := o.user.email
    orderNumber := o.orderNumber
    orderTotal := o.totalAmount
    tier := o.designTier
    itemCount := o.items.length
    orderUrl := frontendUrlOf env ++ "/design?orderId=" ++ o.id }

/-- Payload of the prompt-guide message, as the routine assembles it. -/
def mkGuidePayload (env : Env) (o : Order) : GuidePayload :=
  { customerName := customerNameOf o.user
    customerEmail := o.user.email
    orderNumber := o.orderNumber
    orderUrl := frontendUrlOf env ++ "/design?orderId=" ++ o.id }

/-- Payload of the analytics event, as the routine assembles it. -/
def mkAnalyticsPayload (o : Order) : AnalyticsPayload :=
  { event := "order.paid"
    order_id := o.id
    order_number := o.orderNumber
    amount := o.totalAmount
    tier := o.designTier
    item_count := o.items.length
    country := countryOf o }

/-- The stage-4 fan-out after a committed update: awaited promo increment (its
failure aborts, skipping the rest), then the two catch-guarded messaging
dispatches and the unawaited analytics emission. -/
def fanOut (env : Env) (updated : Order) : Except PaymentError Unit × List Effect :=
  if updated.promoCodeId.getD "" = "" then
    (Except.ok (),
      [Effect.orderConfirmation (mkConfirmationPayload env updated) env.confirmationOutcome,
       Effect.promptGuide (mkGuidePayload env updated) env.guideOutcome,
       Effect.analytics (mkAnalyticsPayload updated) env.analyticsOutcome])
  else
    match env.promoOutcome (updated.promoCodeId.getD "") with
    | Except.error m =>
        (Except.error (PaymentError.promoIncrementFailed m),
         [Effect.promoIncrement (updated.promoCodeId.getD "") (Except.error m)])
    | Except.ok () =>
        (Except.ok (),
          [Effect.promoIncrement (updated.promoCodeId.getD "") (Except.ok ()),
           Effect.orderConfirmation (mkConfirmationPayload env updated) env.confirmationOutcome,
           Effect.promptGuide (mkGuidePayload env updated) env.guideOutcome,
           Effect.analytics (mkAnalyticsPayload updated) env.analyticsOutcome])

/-- `handleSuccessfulPayment(sessionId)`: the whole routine.  Returns the
caller-visible outcome, the final persistence state, and the fan-out effects
dispatched (in order). -/
def handleSuccessfulPayment (env : Env) (db : DB) (sessionId : String) :
    Except PaymentError Unit × DB × List Effect :=
  match env.retrieveSession sessionId with
  | Except.error m => (Except.error (PaymentError.retrieveFailed m), db, [])
  | Except.ok session =>
    if session.payment_status ≠ "paid" then
      (Except.error PaymentError.paymentIncomplete, db, [])
    else
      if sessionOrderId session = "" then
        (Except.error PaymentError.orderIdNotFound, db, [])
      else
        match db.orders (sessionOrderId session) with
        | none => (Except.error PaymentError.orderNotFound, db, [])
        | some order =>
          if order.status = "PAID" then
            (Except.ok (), db, [])
          else if clientRef session ≠ "" ∧ clientRef session ≠ order.id then
            (Except.error PaymentError.identityMismatchClientRef, db, [])
          else if sessionUserId session ≠ "" ∧ sessionUserId session ≠ order.userId then
            (Except.error PaymentError.identityMismatchUser, db, [])
          else if sessionCurrencyNorm session ≠ "" ∧ sessionCurrencyNorm session ≠ "usd" then
            (Except.error (PaymentError.unsupportedCurrency (sessionCurrencyNorm session)), db, [])
          else if |sessionTotal session - order.totalAmount| > 1 / 100 then
            (Except.error (PaymentError.amountMismatch order.totalAmount (sessionTotal session)),
             db, [])
          else
            match env.updateOutcome with
            | Except.error m => (Except.error (PaymentError.updateFailed m), db, [])
            | Except.ok () =>
              ((fanOut env (markPaid order env.now)).1,
               commitDB db (sessionOrderId session) order env.now session,
               (fanOut env (markPaid order env.now)).2)

/-! ### Concrete fixtures used by the witness and counterexample theorems -/

/-- A sample owning user. -/
def testUser : User :=
  { id := "user-1", firstName := some "Ada", email := "ada@example.com" }

/-- A sample pending order with total 49.99. -/
def testOrder : Order :=
  { id := "ord-1", userId := "user-1", status := "PENDING",
    totalAmount := 4999 / 100, designTier := "basic", orderNumber := "GT-1001",
    promoCodeId := none, paidAt := none, user := testUser,
    items := [{ id := "item-1" }], address := some { country := "US" } }

/-- A persistence state holding exactly `testOrder`. -/
def testDB : DB :=
  { orders := fun i => if i = "ord-1" then some testOrder else none, payments := [] }

/-- A paid provider session consistent with `testOrder` (amount 4999 minor units). -/
def testSession : PaymentSession :=
  { payment_status := "paid",
    metadata := some { orderId := some "ord-1", userId := some "user-1" },
    client_reference_id := some "ord-1",
    amount_total := some 4999,
    currency := some "usd",
    payment_intent := "pi_123",
    payment_method_types := some ["card"] }

/-- Collaborator behaviours where every outside call succeeds. -/
def happyEnv (s : PaymentSession) : Env :=
  { retrieveSession := fun _ => Except.ok s,
    updateOutcome := Except.ok (),
    promoOutcome := fun _ => Except.ok (),
    confirmationOutcome := Except.ok (),
    guideOutcome := Except.ok (),
    analyticsOutcome := Except.ok (),
    frontendUrl := none,
    now := 1700000000 }

/-! ### Structural lemmas about the routine -/

/-- The fan-out stage either succeeds or surfaces a promo-increment failure;
no other error can originate after the commit. -/
theorem fanOut_fst (env : Env) (o : Order) :
    (fanOut env o).1 = Except.ok () ∨
    ∃ m, (fanOut env o).1 = Except.error (PaymentError.promoIncrementFailed m) := by
  unfold fanOut
  split
  · exact Or.inl rfl
  · split
    · exact Or.inr ⟨_, rfl⟩
    · exact Or.inl rfl

/-- Every run either leaves the state untouched with no effects dispatched, or
returns success, or fails with a promo-increment error (the only post-commit
failure channel). -/
theorem handle_cases (env : Env) (db : DB) (sid : String) :
    ((handleSuccessfulPayment env db sid).2.1 = db ∧
      (handleSuccessfulPayment env db sid).2.2 = []) ∨
    (handleSuccessfulPayment env db sid).1 = Except.ok () ∨
    ∃ m, (handleSuccessfulPayment env db sid).1 =
      Except.error (PaymentError.promoIncrementFailed m) := by
  unfold handleSuccessfulPayment
  split
  · exact Or.inl ⟨rfl, rfl⟩
  · split
    · exact Or.inl ⟨rfl, rfl⟩
    · split
      · exact Or.inl ⟨rfl, rfl⟩
      · split
        · exact Or.inl ⟨rfl, rfl⟩
        · split
          · exact Or.inr (Or.inl rfl)
          · split
            · exact Or.inl ⟨rfl, rfl⟩
            · split
              · exact Or.inl ⟨rfl, rfl⟩
              · split
                · exact Or.inl ⟨rfl, rfl⟩
                · split
                  · exact Or.inl ⟨rfl, rfl⟩
                  · split
                    · exact Or.inl ⟨rfl, rfl⟩
                    · exact Or.inr (fanOut_fst env _)

/-- After the session gate, order resolution and the idempotency guard have all
passed (order found and still pending), the routine is exactly the
reconciliation checks followed by commit and fan-out. -/
theorem handle_eq_pending (env : Env) (db : DB) (sid : String)
    (s : PaymentSession) (order : Order)
    (hs : env.retrieveSession sid = Except.ok s)
    (hpaid : s.payment_status = "paid")
    (hoid : sessionOrderId s ≠ "")
    (hord : db.orders (sessionOrderId s) = some order)
    (hpend : order.status ≠ "PAID") :
    handleSuccessfulPayment env db sid =
      if clientRef s ≠ "" ∧ clientRef s ≠ order.id then
        (Except.error PaymentError.identityMismatchClientRef, db, [])
      else if sessionUserId s ≠ "" ∧ sessionUserId s ≠ order.userId then
        (Except.error PaymentError.identityMismatchUser, db, [])
      else if sessionCurrencyNorm s ≠ "" ∧ sessionCurrencyNorm s ≠ "usd" then
        (Except.error (PaymentError.unsupportedCurrency (sessionCurrencyNorm s)), db, [])
      else if |sessionTotal s - order.totalAmount| > 1 / 100 then
        (Except.error (PaymentError.amountMismatch order.totalAmount (sessionTotal s)), db, [])
      else
        match env.updateOutcome with
        | Except.error m => (Except.error (PaymentError.updateFailed m), db, [])
        | Except.ok () =>
          ((fanOut env (markPaid order env.now)).1,
           commitDB db (sessionOrderId s) order env.now s,
           (fanOut env (markPaid order env.now)).2) := by
  unfold handleSuccessfulPayment
  rw [hs]
  simp only [hpaid, hord]
  rw [if_neg (by simp), if_neg hoid, if_neg (by simp [hpend])]

/-- The already-paid order fixture, together with its existing Payment entry. -/
def paidOrder : Order := { testOrder with status := "PAID", paidAt := some 1600000000 }

/-- A persistence state whose order is already paid and already has a Payment. -/
def paidDB : DB :=
  { orders := fun i => if i = "ord-1" then some paidOrder else none,
    payments := [("ord-1", mkPayment testSession)] }

/-- A session the provider reports as not yet paid. -/
def unpaidSession : PaymentSession := { testSession with payment_status := "unpaid" }

/-- A session settled in an unsupported currency. -/
def eurSession : PaymentSession := { testSession with currency := some "eur" }

/-! ### Claim theorems -/

/-- Claim C1: when the session resolves to an order whose status is already
"PAID", the routine returns success, leaves the persistence state (orders and
payment ledger) untouched, and dispatches no promo, messaging or analytics
effect — a repeated confirmation is a safe no-op. -/
theorem already_paid_confirmation_is_noop (env : Env) (db : DB) (sid : String)
    (s : PaymentSession) (order : Order)
    (hs : env.retrieveSession sid = Except.ok s)
    (hpaid : s.payment_status = "paid")
    (hoid : sessionOrderId s ≠ "")
    (hord : db.orders (sessionOrderId s) = some order)
    (hstat : order.status = "PAID") :
    handleSuccessfulPayment env db sid = (Except.ok (), db, []) := by
  unfold handleSuccessfulPayment
  rw [hs]
  simp [hpaid, hoid, hord, hstat]

/-- Witness for claim C1: the fixture already-paid order, confirmed again. -/
theorem already_paid_confirmation_is_noop_witness :
    paidDB.orders (sessionOrderId testSession) = some paidOrder ∧
    paidOrder.status = "PAID" ∧
    handleSuccessfulPayment (happyEnv testSession) paidDB "sess-1" =
      (Except.ok (), paidDB, []) :=
  ⟨rfl, rfl,
    already_paid_confirmation_is_noop (happyEnv testSession) paidDB "sess-1"
      testSession paidOrder rfl rfl (by decide) rfl rfl⟩

/-- Claim C7: a session whose payment status is not "paid" is rejected with
`paymentIncomplete`; the state is unchanged and no later stage runs. -/
theorem incomplete_payment_rejected (env : Env) (db : DB) (sid : String)
    (s : PaymentSession)
    (hs : env.retrieveSession sid = Except.ok s)
    (hnp : s.payment_status ≠ "paid") :
    handleSuccessfulPayment env db sid =
      (Except.error PaymentError.paymentIncomplete, db, []) := by
  unfold handleSuccessfulPayment
  rw [hs]
  simp [hnp]

/-- Witness for claim C7: an "unpaid" session against the pending fixture. -/
theorem incomplete_payment_rejected_witness :
    unpaidSession.payment_status ≠ "paid" ∧
    handleSuccessfulPayment (happyEnv unpaidSession) testDB "sess-1" =
      (Except.error PaymentError.paymentIncomplete, testDB, []) :=
  ⟨by decide,
    incomplete_payment_rejected (happyEnv unpaidSession) testDB "sess-1"
      unpaidSession rfl (by decide)⟩

/-- Claim C2: whenever the routine fails with one of the six validation error
kinds, the failure precedes any mutation: the persistence state is returned
unchanged (the order stays pending, no Payment appended) and no effect was
dispatched. -/
theorem validation_failure_mutates_nothing (env : Env) (db : DB) (sid : String)
    (e : PaymentError)
    (h : (handleSuccessfulPayment env db sid).1 = Except.error e)
    (hv : e.isValidationError = true) :
    (handleSuccessfulPayment env db sid).2.1 = db ∧
    (handleSuccessfulPayment env db sid).2.2 = [] := by
  rcases handle_cases env db sid with hc | hc | ⟨m, hc⟩
  · exact hc
  · rw [h] at hc
    cases hc
  · rw [h] at hc
    injection hc with h2
    subst h2
    simp [PaymentError.isValidationError] at hv

/-- Witness for claim C2: the unsupported-currency failure leaves the state
unchanged and dispatches nothing. -/
theorem validation_failure_mutates_nothing_witness :
    (handleSuccessfulPayment (happyEnv eurSession) testDB "sess-1").1 =
      Except.error (PaymentError.unsupportedCurrency "eur") ∧
    (PaymentError.unsupportedCurrency "eur").isValidationError = true ∧
    (handleSuccessfulPayment (happyEnv eurSession) testDB "sess-1").2.1 = testDB ∧
    (handleSuccessfulPayment (happyEnv eurSession) testDB "sess-1").2.2 = [] :=
  ⟨rfl, rfl,
    validation_failure_mutates_nothing (happyEnv eurSession) testDB "sess-1"
      (PaymentError.unsupportedCurrency "eur") rfl rfl⟩

/-- A session whose client-reference identifier disagrees with the order. -/
def crMismatchSession : PaymentSession :=
  { testSession with client_reference_id := some "ord-2" }

/-- A session whose converted total (51.00) disagrees with the order total (49.99). -/
def overchargedSession : PaymentSession := { testSession with amount_total := some 5100 }

/-- A session with no `amount_total` at all. -/
def noAmountSession : PaymentSession := { testSession with amount_total := none }

/-- Claim C8: at the reconciliation stage (paid session, pending order
resolved), a non-empty client-reference identifier differing from the order's
id, or a non-empty metadata user identifier differing from the order's owner,
aborts with the corresponding identity-mismatch error and no mutation; when
both checks pass (each absent field counting as a pass), no identity-mismatch
error is produced. -/
theorem identity_mismatch_guard (env : Env) (db : DB) (sid : String)
    (s : PaymentSession) (order : Order)
    (hs : env.retrieveSession sid = Except.ok s)
    (hpaid : s.payment_status = "paid")
    (hoid : sessionOrderId s ≠ "")
    (hord : db.orders (sessionOrderId s) = some order)
    (hpend : order.status ≠ "PAID") :
    ((clientRef s ≠ "" ∧ clientRef s ≠ order.id) →
      handleSuccessfulPayment env db sid =
        (Except.error PaymentError.identityMismatchClientRef, db, [])) ∧
    (¬(clientRef s ≠ "" ∧ clientRef s ≠ order.id) →
      (sessionUserId s ≠ "" ∧ sessionUserId s ≠ order.userId) →
      handleSuccessfulPayment env db sid =
        (Except.error PaymentError.identityMismatchUser, db, [])) ∧
    (¬(clientRef s ≠ "" ∧ clientRef s ≠ order.id) →
      ¬(sessionUserId s ≠ "" ∧ sessionUserId s ≠ order.userId) →
      ∀ e, (handleSuccessfulPayment env db sid).1 = Except.error e →
        e.isIdentityMismatch = false) := by
  have H := handle_eq_pending env db sid s order hs hpaid hoid hord hpend
  refine ⟨?_, ?_, ?_⟩
  · intro hcr
    rw [H, if_pos hcr]
  · intro hcr hu
    rw [H, if_neg hcr, if_pos hu]
  · intro hcr hu e he
    rw [H, if_neg hcr, if_neg hu] at he
    split at he
    · dsimp only at he
      injection he with h2
      subst h2
      rfl
    · split at he
      · dsimp only at he
        injection he with h2
        subst h2
        rfl
      · split at he
        · dsimp only at he
          injection he with h2
          subst h2
          rfl
        · dsimp only at he
          rcases fanOut_fst env (markPaid order env.now) with h1 | ⟨m, h1⟩
          · rw [h1] at he
            cases he
          · rw [h1] at he
            injection he with h2
            subst h2
            rfl

/-- Witness for claim C8: a client-reference identifier pointing at a
different order aborts with the client-reference mismatch and no mutation. -/
theorem identity_mismatch_guard_witness :
    (clientRef crMismatchSession ≠ "" ∧ clientRef crMismatchSession ≠ testOrder.id) ∧
    handleSuccessfulPayment (happyEnv crMismatchSession) testDB "sess-1" =
      (Except.error PaymentError.identityMismatchClientRef, testDB, []) :=
  ⟨by decide,
    (identity_mismatch_guard (happyEnv crMismatchSession) testDB "sess-1"
      crMismatchSession testOrder rfl rfl (by decide) rfl (by decide)).1 (by decide)⟩

/-- Claim C6: at the reconciliation stage, a present, non-empty currency that
is not "usd" after lowercasing aborts with `unsupportedCurrency` (and no
mutation); an absent currency field skips the check — no unsupported-currency
error can arise. -/
theorem currency_guard (env : Env) (db : DB) (sid : String)
    (s : PaymentSession) (order : Order)
    (hs : env.retrieveSession sid = Except.ok s)
    (hpaid : s.payment_status = "paid")
    (hoid : sessionOrderId s ≠ "")
    (hord : db.orders (sessionOrderId s) = some order)
    (hpend : order.status ≠ "PAID")
    (hcr : ¬(clientRef s ≠ "" ∧ clientRef s ≠ order.id))
    (hu : ¬(sessionUserId s ≠ "" ∧ sessionUserId s ≠ order.userId)) :
    ((sessionCurrencyNorm s ≠ "" ∧ sessionCurrencyNorm s ≠ "usd") →
      handleSuccessfulPayment env db sid =
        (Except.error (PaymentError.unsupportedCurrency (sessionCurrencyNorm s)), db, [])) ∧
    (s.currency = none →
      ∀ c, (handleSuccessfulPayment env db sid).1 ≠
        Except.error (PaymentError.unsupportedCurrency c)) := by
  have H := handle_eq_pending env db sid s order hs hpaid hoid hord hpend
  constructor
  · intro hc
    rw [H, if_neg hcr, if_neg hu, if_pos hc]
  · intro hnone c he
    have hcn : sessionCurrencyNorm s = "" := by
      unfold sessionCurrencyNorm
      rw [hnone]
      rfl
    rw [H, if_neg hcr, if_neg hu, if_neg (by simp [hcn])] at he
    split at he
    · dsimp only at he
      injection he with h2
      cases h2
    · split at he
      · dsimp only at he
        injection he with h2
        cases h2
      · dsimp only at he
        rcases fanOut_fst env (markPaid order env.now) with h1 | ⟨m, h1⟩
        · rw [h1] at he
          cases he
        · rw [h1] at he
          injection he with h2
          cases h2

/-- Witness for claim C6: a "eur" session against the pending fixture aborts
with `unsupportedCurrency` and no mutation. -/
theorem currency_guard_witness :
    (sessionCurrencyNorm eurSession ≠ "" ∧ sessionCurrencyNorm eurSession ≠ "usd") ∧
    handleSuccessfulPayment (happyEnv eurSession) testDB "sess-1" =
      (Except.error (PaymentError.unsupportedCurrency "eur"), testDB, []) :=
  ⟨by decide,
    (currency_guard (happyEnv eurSession) testDB "sess-1" eurSession testOrder
      rfl rfl (by decide) rfl (by decide) (by decide) (by decide)).1 (by decide)⟩

/-- Claim C5: once the identity and currency checks have passed, the routine
fails with `amountMismatch` — carrying the order total and the converted
session total — exactly when the absolute difference between the session
amount divided by 100 and the order total exceeds 0.01; otherwise no
amount-mismatch error arises. -/
theorem amount_tolerance_guard (env : Env) (db : DB) (sid : String)
    (s : PaymentSession) (order : Order)
    (hs : env.retrieveSession sid = Except.ok s)
    (hpaid : s.payment_status = "paid")
    (hoid : sessionOrderId s ≠ "")
    (hord : db.orders (sessionOrderId s) = some order)
    (hpend : order.status ≠ "PAID")
    (hcr : ¬(clientRef s ≠ "" ∧ clientRef s ≠ order.id))
    (hu : ¬(sessionUserId s ≠ "" ∧ sessionUserId s ≠ order.userId))
    (hcur : ¬(sessionCurrencyNorm s ≠ "" ∧ sessionCurrencyNorm s ≠ "usd")) :
    (|sessionTotal s - order.totalAmount| > 1 / 100 →
      handleSuccessfulPayment env db sid =
        (Except.error (PaymentError.amountMismatch order.totalAmount (sessionTotal s)),
         db, [])) ∧
    (¬(|sessionTotal s - order.totalAmount| > 1 / 100) →
      ∀ a b, (handleSuccessfulPayment env db sid).1 ≠
        Except.error (PaymentError.amountMismatch a b)) := by
  have H := handle_eq_pending env db sid s order hs hpaid hoid hord hpend
  constructor
  · intro ha
    rw [H, if_neg hcr, if_neg hu, if_neg hcur, if_pos ha]
  · intro ha a b he
    rw [H, if_neg hcr, if_neg hu, if_neg hcur, if_neg ha] at he
    split at he
    · dsimp only at he
      injection he with h2
      cases h2
    · dsimp only at he
      rcases fanOut_fst env (markPaid order env.now) with h1 | ⟨m, h1⟩
      · rw [h1] at he
        cases he
      · rw [h1] at he
        injection he with h2
        cases h2

/-- Witness for claim C5: session total 5100 against order total 49.99 fails
citing expected 49.99 and got 51.00, while the matching 4999 session succeeds
end to end. -/
theorem amount_tolerance_guard_witness :
    |sessionTotal overchargedSession - testOrder.totalAmount| > 1 / 100 ∧
    sessionTotal overchargedSession = 51 ∧ testOrder.totalAmount = 4999 / 100 ∧
    handleSuccessfulPayment (happyEnv overchargedSession) testDB "sess-1" =
      (Except.error (PaymentError.amountMismatch (4999 / 100) 51), testDB, []) ∧
    (handleSuccessfulPayment (happyEnv testSession) testDB "sess-1").1 =
      Except.ok () := by
  have hdiff : sessionTotal overchargedSession - testOrder.totalAmount = 101 / 100 := by
    norm_num [sessionTotal, overchargedSession, testSession, testOrder]
  have hamt : |sessionTotal overchargedSession - testOrder.totalAmount| > 1 / 100 := by
    rw [hdiff, abs_of_pos (by norm_num)]
    norm_num
  have h51 : sessionTotal overchargedSession = 51 := by
    norm_num [sessionTotal, overchargedSession, testSession]
  refine ⟨hamt, h51, by norm_num [testOrder], ?_, ?_⟩
  · have hm := (amount_tolerance_guard (happyEnv overchargedSession) testDB "sess-1"
      overchargedSession testOrder rfl rfl (by decide) rfl (by decide) (by decide)
      (by decide) (by decide)).1 hamt
    rw [hm, h51]
    rfl
  · have H := handle_eq_pending (happyEnv testSession) testDB "sess-1" testSession
      testOrder rfl rfl (by decide) rfl (by decide)
    rw [H, if_neg (by decide), if_neg (by decide), if_neg (by decide),
        if_neg (by norm_num [sessionTotal, testSession, testOrder])]
    rfl

/-- Claim C10: with `amount_total` absent or zero the converted session total
is 0, so (identity and currency checks having passed) any order total above
0.01 fails with `amountMismatch`, and passing the amount check forces the
order total to be at most 0.01. -/
theorem absent_amount_behaviour (env : Env) (db : DB) (sid : String)
    (s : PaymentSession) (order : Order)
    (hs : env.retrieveSession sid = Except.ok s)
    (hpaid : s.payment_status = "paid")
    (hoid : sessionOrderId s ≠ "")
    (hord : db.orders (sessionOrderId s) = some order)
    (hpend : order.status ≠ "PAID")
    (hcr : ¬(clientRef s ≠ "" ∧ clientRef s ≠ order.id))
    (hu : ¬(sessionUserId s ≠ "" ∧ sessionUserId s ≠ order.userId))
    (hcur : ¬(sessionCurrencyNorm s ≠ "" ∧ sessionCurrencyNorm s ≠ "usd"))
    (hz : s.amount_total = none ∨ s.amount_total = some 0) :
    sessionTotal s = 0 ∧
    (order.totalAmount > 1 / 100 →
      handleSuccessfulPayment env db sid =
        (Except.error (PaymentError.amountMismatch order.totalAmount 0), db, [])) ∧
    ((∀ a b, (handleSuccessfulPayment env db sid).1 ≠
        Except.error (PaymentError.amountMismatch a b)) →
      order.totalAmount ≤ 1 / 100) := by
  have h0 : sessionTotal s = 0 := by
    rcases hz with h | h <;> simp [sessionTotal, h]
  have H := handle_eq_pending env db sid s order hs hpaid hoid hord hpend
  have hfail : order.totalAmount > 1 / 100 →
      handleSuccessfulPayment env db sid =
        (Except.error (PaymentError.amountMismatch order.totalAmount 0), db, []) := by
    intro ht
    have hgt : |sessionTotal s - order.totalAmount| > 1 / 100 := by
      rw [h0, zero_sub, abs_neg]
      exact lt_of_lt_of_le ht (le_abs_self _)
    rw [H, if_neg hcr, if_neg hu, if_neg hcur, if_pos hgt, h0]
  refine ⟨h0, hfail, ?_⟩
  intro hno
  by_contra hgt
  push_neg at hgt
  exact hno order.totalAmount 0 (by rw [hfail hgt])

/-- Witness for claim C10: a session with no `amount_total` against the 49.99
order fails with `amountMismatch` expected 49.99 got 0. -/
theorem absent_amount_behaviour_witness :
    noAmountSession.amount_total = none ∧
    testOrder.totalAmount > 1 / 100 ∧
    sessionTotal noAmountSession = 0 ∧
    handleSuccessfulPayment (happyEnv noAmountSession) testDB "sess-1" =
      (Except.error (PaymentError.amountMismatch (4999 / 100) 0), testDB, []) := by
  have ht : testOrder.totalAmount > 1 / 100 := by norm_num [testOrder]
  have A := absent_amount_behaviour (happyEnv noAmountSession) testDB "sess-1"
    noAmountSession testOrder rfl rfl (by decide) rfl (by decide) (by decide)
    (by decide) (by decide) (Or.inl rfl)
  exact ⟨rfl, ht, A.1, by rw [A.2.1 ht]; rfl⟩

/-- Claim C9: on a successful confirmation of a pending order (all checks pass
and the update commits), the single atomic update stores the order with status
"PAID" and the paid-timestamp set, and appends exactly one Payment whose
provider payment-intent identifier comes from the session, whose amount is the
session total converted to major units, whose currency is the session currency
defaulting to "usd" when absent, whose status is "COMPLETED", and whose
payment-method tag is the first session method type defaulting to "card". -/
theorem commit_contents (env : Env) (db : DB) (sid : String)
    (s : PaymentSession) (order : Order)
    (hs : env.retrieveSession sid = Except.ok s)
    (hpaid : s.payment_status = "paid")
    (hoid : sessionOrderId s ≠ "")
    (hord : db.orders (sessionOrderId s) = some order)
    (hpend : order.status ≠ "PAID")
    (hcr : ¬(clientRef s ≠ "" ∧ clientRef s ≠ order.id))
    (hu : ¬(sessionUserId s ≠ "" ∧ sessionUserId s ≠ order.userId))
    (hcur : ¬(sessionCurrencyNorm s ≠ "" ∧ sessionCurrencyNorm s ≠ "usd"))
    (hamt : ¬(|sessionTotal s - order.totalAmount| > 1 / 100))
    (hupd : env.updateOutcome = Except.ok ()) :
    (handleSuccessfulPayment env db sid).2.1.orders (sessionOrderId s) =
      some { order with status := "PAID", paidAt := some env.now } ∧
    (handleSuccessfulPayment env db sid).2.1.payments =
      (sessionOrderId s,
        { stripePaymentId := s.payment_intent,
          amount := sessionTotal s,
          currency := paymentCurrency s,
          status := "COMPLETED",
          paymentMethod := paymentMethodTag s }) :: db.payments := by
  have H := handle_eq_pending env db sid s order hs hpaid hoid hord hpend
  rw [H, if_neg hcr, if_neg hu, if_neg hcur, if_neg hamt, hupd]
  constructor
  · simp [commitDB, markPaid]
  · simp [commitDB, mkPayment]

/-- Witness for claim C9: the happy-path fixture marks the order paid and
creates the single "COMPLETED" Payment with the session's data. -/
theorem commit_contents_witness :
    sessionTotal testSession = 4999 / 100 ∧
    (handleSuccessfulPayment (happyEnv testSession) testDB "sess-1").2.1.orders "ord-1" =
      some { testOrder with status := "PAID", paidAt := some 1700000000 } ∧
    (handleSuccessfulPayment (happyEnv testSession) testDB "sess-1").2.1.payments =
      [("ord-1",
        { stripePaymentId := "pi_123",
          amount := sessionTotal testSession,
          currency := "usd",
          status := "COMPLETED",
          paymentMethod := "card" })] := by
  have C := commit_contents (happyEnv testSession) testDB "sess-1" testSession testOrder
    rfl rfl (by decide) rfl (by decide) (by decide) (by decide) (by decide)
    (by norm_num [sessionTotal, testSession, testOrder]) rfl
  refine ⟨by norm_num [sessionTotal, testSession], C.1, ?_⟩
  rw [C.2]
  rfl

/-- An order fixture carrying a promo-code reference. -/
def promoOrder : Order := { testOrder with promoCodeId := some "promo-1" }

/-- A persistence state holding exactly `promoOrder`. -/
def promoDB : DB :=
  { orders := fun i => if i = "ord-1" then some promoOrder else none, payments := [] }

/-- Collaborators where everything succeeds except the promo-usage increment. -/
def promoFailEnv : Env :=
  { happyEnv testSession with promoOutcome := fun _ => Except.error "promo backend down" }

/-- Claim C3 counterexample: the promo-usage increment is awaited without a
guard, so on a concrete confirmation whose commit succeeded (order marked
"PAID" in the returned state) a failing increment makes the overall operation
return that failure instead of success, refuting "a failure thrown by the
promo-usage increment does not propagate to the caller". -/
theorem promo_increment_failure_cex :
    (handleSuccessfulPayment promoFailEnv promoDB "sess-1").2.1.orders "ord-1" =
      some { promoOrder with status := "PAID", paidAt := some 1700000000 } ∧
    (handleSuccessfulPayment promoFailEnv promoDB "sess-1").1 =
      Except.error (PaymentError.promoIncrementFailed "promo backend down") ∧
    (handleSuccessfulPayment promoFailEnv promoDB "sess-1").1 ≠ Except.ok () := by
  have H := handle_eq_pending promoFailEnv promoDB "sess-1" testSession promoOrder
    rfl rfl (by decide) rfl (by decide)
  have hall : handleSuccessfulPayment promoFailEnv promoDB "sess-1" =
      (Except.error (PaymentError.promoIncrementFailed "promo backend down"),
       commitDB promoDB "ord-1" promoOrder 1700000000 testSession,
       [Effect.promoIncrement "promo-1" (Except.error "promo backend down")]) := by
    rw [H, if_neg (by decide), if_neg (by decide), if_neg (by decide),
        if_neg (by norm_num [sessionTotal, testSession, promoOrder, testOrder])]
    rfl
  refine ⟨by rw [hall]; rfl, by rw [hall], by rw [hall]; simp⟩

/-- Claim C3 (amended): when the commit has succeeded and the updated order
references a promo code, a failure of the promo-usage increment — which the
routine awaits, unguarded — propagates to the caller as `promoIncrementFailed`;
the committed update persists in the returned state, and the messaging and
analytics dispatches are skipped. -/
theorem promo_increment_failure_amended (env : Env) (db : DB) (sid : String)
    (s : PaymentSession) (order : Order) (m : String)
    (hs : env.retrieveSession sid = Except.ok s)
    (hpaid : s.payment_status = "paid")
    (hoid : sessionOrderId s ≠ "")
    (hord : db.orders (sessionOrderId s) = some order)
    (hpend : order.status ≠ "PAID")
    (hcr : ¬(clientRef s ≠ "" ∧ clientRef s ≠ order.id))
    (hu : ¬(sessionUserId s ≠ "" ∧ sessionUserId s ≠ order.userId))
    (hcur : ¬(sessionCurrencyNorm s ≠ "" ∧ sessionCurrencyNorm s ≠ "usd"))
    (hamt : ¬(|sessionTotal s - order.totalAmount| > 1 / 100))
    (hupd : env.updateOutcome = Except.ok ())
    (hpromo : order.promoCodeId.getD "" ≠ "")
    (hfail : env.promoOutcome (order.promoCodeId.getD "") = Except.error m) :
    (handleSuccessfulPayment env db sid).1 =
      Except.error (PaymentError.promoIncrementFailed m) ∧
    (handleSuccessfulPayment env db sid).2.1.orders (sessionOrderId s) =
      some { order with status := "PAID", paidAt := some env.now } ∧
    (handleSuccessfulPayment env db sid).2.2 =
      [Effect.promoIncrement (order.promoCodeId.getD "") (Except.error m)] := by
  have H := handle_eq_pending env db sid s order hs hpaid hoid hord hpend
  have hpc : (markPaid order env.now).promoCodeId = order.promoCodeId := rfl
  have hf : fanOut env (markPaid order env.now) =
      (Except.error (PaymentError.promoIncrementFailed m),
       [Effect.promoIncrement (order.promoCodeId.getD "") (Except.error m)]) := by
    unfold fanOut
    rw [hpc, if_neg hpromo, hfail]
  rw [H, if_neg hcr, if_neg hu, if_neg hcur, if_neg hamt, hupd]
  refine ⟨?_, ?_, ?_⟩
  · show (fanOut env (markPaid order env.now)).1 = _
    rw [hf]
  · show (commitDB db (sessionOrderId s) order env.now s).orders (sessionOrderId s) = _
    simp [commitDB, markPaid]
  · show (fanOut env (markPaid order env.now)).2 = _
    rw [hf]

/-- Witness for the amended claim C3: the concrete promo-failure fixture. -/
theorem promo_increment_failure_amended_witness :
    promoFailEnv.updateOutcome = Except.ok () ∧
    promoOrder.promoCodeId.getD "" ≠ "" ∧
    promoFailEnv.promoOutcome "promo-1" = Except.error "promo backend down" ∧
    (handleSuccessfulPayment promoFailEnv promoDB "sess-1").2.2 =
      [Effect.promoIncrement "promo-1" (Except.error "promo backend down")] := by
  have A := promo_increment_failure_amended promoFailEnv promoDB "sess-1" testSession
    promoOrder "promo backend down" rfl rfl (by decide) rfl (by decide) (by decide)
    (by decide) (by decide)
    (by norm_num [sessionTotal, testSession, promoOrder, testOrder]) rfl (by decide) rfl
  exact ⟨rfl, by decide, rfl, A.2.2⟩

/-- Claim C4: once the commit has succeeded (and the promo step, when present,
did not fail), the two messaging dispatches and the analytics emission are
recorded in the effect log with whatever outcomes — failures included — their
transports produce, and the operation still returns success: their failures
never escalate to the caller. -/
theorem fanout_failures_never_escalate (env : Env) (db : DB) (sid : String)
    (s : PaymentSession) (order : Order)
    (hs : env.retrieveSession sid = Except.ok s)
    (hpaid : s.payment_status = "paid")
    (hoid : sessionOrderId s ≠ "")
    (hord : db.orders (sessionOrderId s) = some order)
    (hpend : order.status ≠ "PAID")
    (hcr : ¬(clientRef s ≠ "" ∧ clientRef s ≠ order.id))
    (hu : ¬(sessionUserId s ≠ "" ∧ sessionUserId s ≠ order.userId))
    (hcur : ¬(sessionCurrencyNorm s ≠ "" ∧ sessionCurrencyNorm s ≠ "usd"))
    (hamt : ¬(|sessionTotal s - order.totalAmount| > 1 / 100))
    (hupd : env.updateOutcome = Except.ok ())
    (hpromo : order.promoCodeId.getD "" = "" ∨
      env.promoOutcome (order.promoCodeId.getD "") = Except.ok ()) :
    (handleSuccessfulPayment env db sid).1 = Except.ok () ∧
    Effect.orderConfirmation (mkConfirmationPayload env (markPaid order env.now))
        env.confirmationOutcome ∈ (handleSuccessfulPayment env db sid).2.2 ∧
    Effect.promptGuide (mkGuidePayload env (markPaid order env.now))
        env.guideOutcome ∈ (handleSuccessfulPayment env db sid).2.2 ∧
    Effect.analytics (mkAnalyticsPayload (markPaid order env.now))
        env.analyticsOutcome ∈ (handleSuccessfulPayment env db sid).2.2 := by
  have H := handle_eq_pending env db sid s order hs hpaid hoid hord hpend
  have hpc : (markPaid order env.now).promoCodeId = order.promoCodeId := rfl
  have hf : (fanOut env (markPaid order env.now)).1 = Except.ok () ∧
      Effect.orderConfirmation (mkConfirmationPayload env (markPaid order env.now))
        env.confirmationOutcome ∈ (fanOut env (markPaid order env.now)).2 ∧
      Effect.promptGuide (mkGuidePayload env (markPaid order env.now))
        env.guideOutcome ∈ (fanOut env (markPaid order env.now)).2 ∧
      Effect.analytics (mkAnalyticsPayload (markPaid order env.now))
        env.analyticsOutcome ∈ (fanOut env (markPaid order env.now)).2 := by
    unfold fanOut
    rw [hpc]
    by_cases hp : order.promoCodeId.getD "" = ""
    · rw [if_pos hp]
      exact ⟨rfl, by simp, by simp, by simp⟩
    · rw [if_neg hp]
      rcases hpromo with h | h
      · exact absurd h hp
      · rw [h]
        exact ⟨rfl, by simp, by simp, by simp⟩
  rw [H, if_neg hcr, if_neg hu, if_neg hcur, if_neg hamt, hupd]
  exact ⟨hf.1, hf.2.1, hf.2.2.1, hf.2.2.2⟩

/-- Collaborators where both mailers and the analytics emitter fail. -/
def msgFailEnv : Env :=
  { happyEnv testSession with
      confirmationOutcome := Except.error "smtp unavailable",
      guideOutcome := Except.error "smtp unavailable",
      analyticsOutcome := Except.error "analytics sink down" }

/-- Witness for claim C4: with every dispatch transport failing, the routine
still returns success. -/
theorem fanout_failures_never_escalate_witness :
    msgFailEnv.confirmationOutcome = Except.error "smtp unavailable" ∧
    msgFailEnv.updateOutcome = Except.ok () ∧
    (handleSuccessfulPayment msgFailEnv testDB "sess-1").1 = Except.ok () := by
  have A := fanout_failures_never_escalate msgFailEnv testDB "sess-1" testSession
    testOrder rfl rfl (by decide) rfl (by decide) (by decide) (by decide) (by decide)
    (by norm_num [sessionTotal, testSession, testOrder]) rfl (Or.inl rfl)
  exact ⟨rfl, rfl, A.1⟩
